import Mathlib

/-!
Verification of the two scripts of the ferrisup data-science templates:
the sample Parquet generator (generate_sample_parquet.py) and the
diagram renderer (visualize_templates.py), shallowly embedded in Lean.
-/

namespace FerrisUp

/-! ## Sample data generator (generate_sample_parquet.py)

The script builds a dict of six columns, wraps it in a DataFrame and
writes it to a Parquet file.  We embed the table as a list of
(column name, list of cell values).  The three random columns consume
draws from an explicit source of randomness. -/

/-- A cell value of the generated table: Python ints, strings, floats
(modelled as rationals), dates and booleans. -/
inductive Value where
  | int (n : Int)
  | str (s : String)
  | rat (q : ℚ)
  | date (y m d : Nat)
  | bool (b : Bool)
deriving DecidableEq, Repr

/-- The random draws the script consumes: `np.random.rand(100)` yields one
real in [0,1) per row, `np.random.choice` over a 4-element and a 2-element
list yields one index per row. -/
structure Randomness where
  rand : Fin 100 → ℚ
  choiceCat : Fin 100 → Fin 4
  choiceBool : Fin 100 → Fin 2

/-- Gregorian leap-year test, as used by the date library backing
`pd.date_range`. -/
def isLeap (y : Nat) : Bool :=
  (y % 4 == 0 && y % 100 != 0) || y % 400 == 0

/-- Days in a Gregorian month. -/
def daysInMonth (y m : Nat) : Nat :=
  if m == 2 then (if isLeap y then 29 else 28)
  else if m == 4 || m == 6 || m == 9 || m == 11 then 30
  else 31

/-- The calendar successor of a (year, month, day) date. -/
def nextDay : Nat × Nat × Nat → Nat × Nat × Nat
  | (y, m, d) =>
    if d < daysInMonth y m then (y, m, d + 1)
    else if m < 12 then (y, m + 1, 1)
    else (y + 1, 1, 1)

/-- The i-th date of `pd.date_range(start='2023-01-01', periods=100)`:
the start date advanced i calendar days. -/
def dateAt : Nat → Nat × Nat × Nat
  | 0 => (2023, 1, 1)
  | n + 1 => nextDay (dateAt n)

/-- Column `id`: `range(1, 101)`. -/
def idColumn : List Value :=
  (List.range' 1 100).map (fun n => Value.int (Int.ofNat n))

/-- Column `name`: `[f'Item {i}' for i in range(1, 101)]` (the f-string
concatenates the literal with the decimal rendering of i). -/
def nameColumn : List Value :=
  (List.range' 1 100).map (fun n => Value.str ("Item " ++ toString n))

/-- Column `value`: `np.random.rand(100) * 1000`. -/
def valueColumn (r : Randomness) : List Value :=
  List.ofFn (fun i : Fin 100 => Value.rat (r.rand i * 1000))

/-- Column `category`: `np.random.choice(['A', 'B', 'C', 'D'], 100)`. -/
def categoryColumn (r : Randomness) : List Value :=
  List.ofFn (fun i : Fin 100 =>
    Value.str (["A", "B", "C", "D"].get (Fin.cast (by decide) (r.choiceCat i))))

/-- Column `date`: `pd.date_range(start='2023-01-01', periods=100)`. -/
def dateColumn : List Value :=
  List.ofFn (fun i : Fin 100 => Value.date (dateAt i).1 (dateAt i).2.1 (dateAt i).2.2)

/-- Column `is_active`: `np.random.choice([True, False], 100)`. -/
def activeColumn (r : Randomness) : List Value :=
  List.ofFn (fun i : Fin 100 =>
    Value.bool ([true, false].get (Fin.cast (by decide) (r.choiceBool i))))

/-- The `data` dict of the script, in declaration order, given the random
draws of one run. -/
def genTable (r : Randomness) : List (String × List Value) :=
  [("id", idColumn),
   ("name", nameColumn),
   ("value", valueColumn r),
   ("category", categoryColumn r),
   ("date", dateColumn),
   ("is_active", activeColumn r)]

/-- Look a column up by name in a table. -/
def getCol : List (String × List Value) → String → List Value
  | [], _ => []
  | (k, v) :: rest, name => if k = name then v else getCol rest name

/-- Projection of an integer cell. -/
def valInt : Value → Option Int
  | Value.int n => some n
  | _ => none

/-- Projection of a rational cell. -/
def valRat : Value → Option ℚ
  | Value.rat q => some q
  | _ => none

/-- Projection of a date cell. -/
def valDate : Value → Option (Nat × Nat × Nat)
  | Value.date y m d => some (y, m, d)
  | _ => none

/-- A list of dates consists of consecutive calendar days: each entry is
the calendar successor of the previous one. -/
def consecutiveDays : List (Nat × Nat × Nat) → Bool
  | [] => true
  | [_] => true
  | a :: b :: rest =>
    if b = nextDay a then consecutiveDays (b :: rest) else false

/-- A fixed source of randomness used to instantiate universally
quantified statements about the generator. -/
def r0 : Randomness :=
  ⟨fun _ => 1 / 2, fun _ => 0, fun _ => 0⟩

/-! ## Diagram renderer (visualize_templates.py)

Each routine builds a graphviz Digraph declaratively: graph-level
attributes, nodes, one clustered subgraph, edges, then renders to a PNG.
We embed the built graph description as plain data. -/

/-- A node declaration: identifier, display label, and the keyword
options given at the call site (shape, color, style) when present. -/
structure GNode where
  id : String
  label : String
  shape : Option String := none
  color : Option String := none
  style : Option String := none
deriving DecidableEq, Repr

/-- An edge declaration: source and target node identifiers plus an
optional label. -/
structure GEdge where
  src : String
  dst : String
  label : Option String := none
deriving DecidableEq, Repr

/-- A clustered subgraph: its graphviz name, the label and style set via
attr, and the nodes and edges declared inside it. -/
structure SubgraphSpec where
  name : String
  label : String
  style : String
  nodes : List GNode
  edges : List GEdge
deriving DecidableEq, Repr

/-- A complete diagram description: comment, the three attr calls, the
top-level nodes, the clustered subgraphs, the top-level edges and the
base name passed to render. -/
structure Diagram where
  comment : String
  graphAttrs : List (String × String)
  nodeAttrs : List (String × String)
  edgeAttrs : List (String × String)
  nodes : List GNode
  subgraphs : List SubgraphSpec
  edges : List GEdge
  renderName : String
deriving DecidableEq, Repr

/-- create_image_classifier_diagram: the graph it builds and renders. -/
def imageClassifierDiagram : Diagram where
  comment := "Image Classifier Architecture"
  graphAttrs := [("rankdir", "TB"), ("size", "8,8"), ("dpi", "300")]
  nodeAttrs := [("shape", "box"), ("style", "filled"), ("color", "lightblue"),
    ("fontname", "Arial")]
  edgeAttrs := [("fontname", "Arial")]
  nodes :=
    [⟨"config", "Configuration\n(config.rs)", some "note", some "lightgreen", none⟩,
     ⟨"data", "Data Processing\n(data.rs)", some "box", none, none⟩,
     ⟨"model", "CNN Model\n(model.rs)", some "box", none, none⟩,
     ⟨"main", "Main Application\n(main.rs)", some "box", none, none⟩]
  subgraphs :=
    [⟨"cluster_dataflow", "Data Flow", "dashed",
      [⟨"images", "Input Images", some "folder", some "lightyellow", none⟩,
       ⟨"tensors", "Image Tensors", some "box3d", some "lightgrey", none⟩,
       ⟨"features", "Feature Maps", some "box3d", some "lightgrey", none⟩,
       ⟨"predictions", "Class Predictions", some "box3d", some "lightgrey", none⟩],
      [⟨"images", "tensors", none⟩, ⟨"tensors", "features", none⟩,
       ⟨"features", "predictions", none⟩]⟩]
  edges :=
    [⟨"config", "data", some "Parameters"⟩,
     ⟨"config", "model", some "Architecture"⟩,
     ⟨"config", "main", some "Training Settings"⟩,
     ⟨"data", "tensors", some "Process"⟩,
     ⟨"model", "features", some "Extract"⟩,
     ⟨"main", "predictions", some "Output"⟩]
  renderName := "burn-image-classifier-diagram"

/-- create_text_analyzer_diagram: the graph it builds and renders. -/
def textAnalyzerDiagram : Diagram where
  comment := "Text Analyzer Architecture"
  graphAttrs := [("rankdir", "TB"), ("size", "8,8"), ("dpi", "300")]
  nodeAttrs := [("shape", "box"), ("style", "filled"), ("color", "lightblue"),
    ("fontname", "Arial")]
  edgeAttrs := [("fontname", "Arial")]
  nodes :=
    [⟨"config", "Configuration\n(config.rs)", some "note", some "lightgreen", none⟩,
     ⟨"data", "Text Processing\n(data.rs)", some "box", none, none⟩,
     ⟨"model", "LSTM Model\n(model.rs)", some "box", none, none⟩,
     ⟨"main", "Main Application\n(main.rs)", some "box", none, none⟩]
  subgraphs :=
    [⟨"cluster_dataflow", "Data Flow", "dashed",
      [⟨"text", "Input Text", some "folder", some "lightyellow", none⟩,
       ⟨"tokens", "Token Sequences", some "box3d", some "lightgrey", none⟩,
       ⟨"embeddings", "Word Embeddings", some "box3d", some "lightgrey", none⟩,
       ⟨"sentiment", "Sentiment Prediction", some "box3d", some "lightgrey", none⟩],
      [⟨"text", "tokens", none⟩, ⟨"tokens", "embeddings", none⟩,
       ⟨"embeddings", "sentiment", none⟩]⟩]
  edges :=
    [⟨"config", "data", some "Parameters"⟩,
     ⟨"config", "model", some "Architecture"⟩,
     ⟨"config", "main", some "Training Settings"⟩,
     ⟨"data", "tokens", some "Tokenize"⟩,
     ⟨"model", "embeddings", some "Embed"⟩,
     ⟨"main", "sentiment", some "Output"⟩]
  renderName := "burn-text-analyzer-diagram"

/-- create_data_predictor_diagram: the graph it builds and renders. -/
def dataPredictorDiagram : Diagram where
  comment := "Data Predictor Architecture"
  graphAttrs := [("rankdir", "TB"), ("size", "8,8"), ("dpi", "300")]
  nodeAttrs := [("shape", "box"), ("style", "filled"), ("color", "lightblue"),
    ("fontname", "Arial")]
  edgeAttrs := [("fontname", "Arial")]
  nodes :=
    [⟨"config", "Configuration\n(config.rs)", some "note", some "lightgreen", none⟩,
     ⟨"data", "Data Processing\n(data.rs)", some "box", none, none⟩,
     ⟨"model", "Neural Network\n(model.rs)", some "box", none, none⟩,
     ⟨"main", "Main Application\n(main.rs)", some "box", none, none⟩]
  subgraphs :=
    [⟨"cluster_dataflow", "Data Flow", "dashed",
      [⟨"csv", "CSV Data", some "folder", some "lightyellow", none⟩,
       ⟨"features", "Numerical Features", some "box3d", some "lightgrey", none⟩,
       ⟨"normalized", "Normalized Features", some "box3d", some "lightgrey", none⟩,
       ⟨"prediction", "Value Prediction", some "box3d", some "lightgrey", none⟩],
      [⟨"csv", "features", none⟩, ⟨"features", "normalized", none⟩,
       ⟨"normalized", "prediction", none⟩]⟩]
  edges :=
    [⟨"config", "data", some "Parameters"⟩,
     ⟨"config", "model", some "Architecture"⟩,
     ⟨"config", "main", some "Training Settings"⟩,
     ⟨"data", "normalized", some "Normalize"⟩,
     ⟨"model", "prediction", some "Predict"⟩,
     ⟨"main", "prediction", some "Output"⟩]
  renderName := "burn-data-predictor-diagram"

/-- create_templates_overview: the graph it builds and renders. -/
def overviewDiagram : Diagram where
  comment := "Burn Templates Overview"
  graphAttrs := [("rankdir", "LR"), ("size", "10,8"), ("dpi", "300")]
  nodeAttrs := [("fontname", "Arial")]
  edgeAttrs := [("fontname", "Arial")]
  nodes :=
    [⟨"burn", "Burn Framework", some "box", some "orange", some "filled"⟩,
     ⟨"image", "Image Classifier", some "box", some "skyblue", some "filled"⟩,
     ⟨"text", "Text Analyzer", some "box", some "lightgreen", some "filled"⟩,
     ⟨"data", "Data Predictor", some "box", some "lightpink", some "filled"⟩]
  subgraphs :=
    [⟨"cluster_image", "Image Classifier Features", "dashed",
      [⟨"cnn", "CNN Architecture", some "ellipse", none, none⟩,
       ⟨"augment", "Image Augmentation", some "ellipse", none, none⟩,
       ⟨"classify", "Multi-class Classification", some "ellipse", none, none⟩], []⟩,
     ⟨"cluster_text", "Text Analyzer Features", "dashed",
      [⟨"lstm", "LSTM Architecture", some "ellipse", none, none⟩,
       ⟨"embed", "Word Embeddings", some "ellipse", none, none⟩,
       ⟨"sentiment", "Sentiment Analysis", some "ellipse", none, none⟩], []⟩,
     ⟨"cluster_data", "Data Predictor Features", "dashed",
      [⟨"mlp", "MLP Architecture", some "ellipse", none, none⟩,
       ⟨"normalize", "Data Normalization", some "ellipse", none, none⟩,
       ⟨"regression", "Regression Analysis", some "ellipse", none, none⟩], []⟩]
  edges :=
    [⟨"burn", "image", none⟩, ⟨"burn", "text", none⟩, ⟨"burn", "data", none⟩,
     ⟨"image", "cnn", none⟩, ⟨"image", "augment", none⟩, ⟨"image", "classify", none⟩,
     ⟨"text", "lstm", none⟩, ⟨"text", "embed", none⟩, ⟨"text", "sentiment", none⟩,
     ⟨"data", "mlp", none⟩, ⟨"data", "normalize", none⟩, ⟨"data", "regression", none⟩]
  renderName := "burn-templates-overview"

/-- The four diagram routines, in the order main() invokes them. -/
def diagramSpecs : List Diagram :=
  [imageClassifierDiagram, textAnalyzerDiagram, dataPredictorDiagram, overviewDiagram]

/-- The PNG file name a diagram is rendered to. -/
def pngFile (d : Diagram) : String := d.renderName ++ ".png"

/-- The sequential chain over a node list: one unlabeled edge from each
node to its successor. -/
def chainEdges (nodes : List GNode) : List GEdge :=
  List.zipWith (fun a b => ⟨a.id, b.id, none⟩) nodes nodes.tail

/-- A diagram has exactly one subgraph, it is the labeled Data Flow
grouping, it holds 3 to 4 nodes, and its edges are exactly the unlabeled
sequential chain over those nodes. -/
def dataFlowOk (d : Diagram) : Prop :=
  d.subgraphs.length = 1 ∧
  ∀ s ∈ d.subgraphs, s.label = "Data Flow" ∧ 3 ≤ s.nodes.length ∧
    s.nodes.length ≤ 4 ∧ s.edges = chainEdges s.nodes

/-! ### The orchestration (main) and its filesystem effects -/

/-- What occupies a filesystem path: a directory or a file with some
content. -/
inductive Entry where
  | dir
  | file (content : String)
deriving DecidableEq, Repr

/-- A flat view of the filesystem: paths mapped to entries. -/
abbrev Entries := List (String × Entry)

/-- Look a path up in the filesystem. -/
def lookupE : Entries → String → Option Entry
  | [], _ => none
  | (k, v) :: rest, p => if k = p then some v else lookupE rest p

/-- Create or overwrite the entry at a path. -/
def upsert : Entries → String → Entry → Entries
  | [], k, v => [(k, v)]
  | (k0, v0) :: rest, k, v =>
    if k0 = k then (k, v) :: rest else (k0, v0) :: upsert rest k v

/-- The process state: the current working directory and the filesystem. -/
structure FS where
  cwd : String
  entries : Entries
deriving DecidableEq, Repr

/-- os.makedirs(p, exist_ok=True): creates the directory when the path is
free, succeeds silently when it already holds a directory, and raises
when it is occupied by a non-directory entry. -/
def makedirs (es : Entries) (p : String) : Option Entries :=
  match lookupE es p with
  | none => some (upsert es p Entry.dir)
  | some Entry.dir => some es
  | some (Entry.file _) => none

/-- dot.render(name, format='png', cleanup=True): writes the PNG beside
the intermediate DOT source and deletes the intermediate, so its net
effect on the directory is the single PNG file; the diagram's comment
stands in for the rendered bytes. -/
def renderDiagram (fs : FS) (d : Diagram) : FS :=
  ⟨fs.cwd, upsert fs.entries (fs.cwd ++ "/" ++ pngFile d) (Entry.file d.comment)⟩

/-- The messages the renderer prints: one per created diagram, the final
confirmation, and the caught-exception report. -/
inductive Msg where
  | created (file : String)
  | allOk
  | error
deriving DecidableEq, Repr

/-- The outcome of running the sequence of diagram routines: the final
state, the messages printed, the PNG files written, and whether every
routine completed. -/
structure SeqOut where
  fs : FS
  printed : List Msg
  files : List String
  ok : Bool
deriving Repr

/-- Run the diagram routines in order starting at position idx; `failAt`
names the position whose routine raises (modelling an environment fault
such as a missing rendering backend), aborting the rest. -/
def runSeq (fs : FS) (ds : List Diagram) (failAt : Option Nat) (idx : Nat) : SeqOut :=
  match ds with
  | [] => ⟨fs, [], [], true⟩
  | d :: rest =>
    if failAt = some idx then ⟨fs, [], [], false⟩
    else
      let o := runSeq (renderDiagram fs d) rest failAt (idx + 1)
      ⟨o.fs, Msg.created (pngFile d) :: o.printed, pngFile d :: o.files, o.ok⟩

/-- The observable outcome of main(): final state, the value returned to
sys.exit, the messages printed, and the PNG files written. -/
structure MainResult where
  fs : FS
  exitCode : Nat
  printed : List Msg
  files : List String
deriving Repr

/-- main(): inside one try block, os.makedirs('diagrams', exist_ok=True),
os.chdir('diagrams'), the four diagram routines in order, then the final
confirmation; any caught exception prints an error report and returns 1,
otherwise 0 is returned. -/
def mainRun (fs : FS) (failAt : Option Nat) : MainResult :=
  match makedirs fs.entries "diagrams" with
  | none => ⟨fs, 1, [Msg.error], []⟩
  | some es =>
    let o := runSeq ⟨"diagrams", es⟩ diagramSpecs failAt 0
    if o.ok then ⟨o.fs, 0, o.printed ++ [Msg.allOk], o.files⟩
    else ⟨o.fs, 1, o.printed ++ [Msg.error], o.files⟩

/-- The four PNG file names, in creation order. -/
def diagramFiles : List String := diagramSpecs.map pngFile

/-- The directory entries a full successful run leaves inside the output
directory. -/
def renderedEntries : Entries :=
  diagramSpecs.map (fun d => ("diagrams" ++ "/" ++ pngFile d, Entry.file d.comment))

/-- The path 'diagrams' is free or already a directory, so makedirs with
exist_ok=True succeeds. -/
def dirOk (es : Entries) : Prop :=
  lookupE es "diagrams" = none ∨ lookupE es "diagrams" = some Entry.dir

/-- The path 'diagrams' is occupied by a non-directory file, so makedirs
raises. -/
def dirBlocked (es : Entries) : Prop :=
  ∃ c, lookupE es "diagrams" = some (Entry.file c)

/-- The per-created-diagram messages of a full run, in order. -/
def createdMsgs : List Msg := diagramFiles.map Msg.created

/-- Looking up the key just written finds the written entry. -/
theorem lookupE_upsert_self (es : Entries) (k : String) (v : Entry) :
    lookupE (upsert es k v) k = some v := by
  induction es with
  | nil => simp [upsert, lookupE]
  | cons kv rest ih =>
    obtain ⟨k0, v0⟩ := kv
    by_cases h : k0 = k
    · subst h
      simp [upsert, lookupE]
    · simp [upsert, lookupE, h, ih]

/-- Writing one key leaves the lookup of every other key unchanged. -/
theorem lookupE_upsert_ne (es : Entries) (k p : String) (v : Entry)
    (h : ¬k = p) : lookupE (upsert es k v) p = lookupE es p := by
  induction es with
  | nil => simp [upsert, lookupE, h]
  | cons kv rest ih =>
    obtain ⟨k0, v0⟩ := kv
    by_cases h0 : k0 = k
    · subst h0
      simp [upsert, lookupE, h]
    · simp [upsert, lookupE, h0, ih]

end FerrisUp

namespace FerrisUp

/-- C7: each of the three per-template routines builds exactly one nested
labeled Data Flow grouping holding a fixed chain of 3 to 4 nodes whose
edges are exactly the unlabeled sequential ones from each stage to the
next. -/
theorem perTemplate_dataflow_chain :
    dataFlowOk imageClassifierDiagram ∧ dataFlowOk textAnalyzerDiagram ∧
    dataFlowOk dataPredictorDiagram := by
  unfold dataFlowOk
  refine ⟨?_, ?_, ?_⟩ <;> decide

/-- C3: main() tolerates a pre-existing output directory, ends up with
the working context inside it, runs the four routines in the fixed
order, returns 0 when all succeed, and returns 1 with an error message
printed when any routine raises or when the output path is occupied by a
non-directory file. -/
theorem mainRun_orchestration (fs : FS) :
    (dirOk fs.entries →
      ((mainRun fs none).exitCode = 0 ∧
       (mainRun fs none).fs.cwd = "diagrams" ∧
       lookupE (mainRun fs none).fs.entries "diagrams" = some Entry.dir ∧
       (mainRun fs none).printed =
         [Msg.created "burn-image-classifier-diagram.png",
          Msg.created "burn-text-analyzer-diagram.png",
          Msg.created "burn-data-predictor-diagram.png",
          Msg.created "burn-templates-overview.png", Msg.allOk] ∧
       (mainRun fs none).files =
         ["burn-image-classifier-diagram.png",
          "burn-text-analyzer-diagram.png",
          "burn-data-predictor-diagram.png",
          "burn-templates-overview.png"]) ∧
      ∀ k, k < 4 → (mainRun fs (some k)).exitCode = 1 ∧
        Msg.error ∈ (mainRun fs (some k)).printed) ∧
    (dirBlocked fs.entries →
      ∀ failAt, (mainRun fs failAt).exitCode = 1 ∧
        (mainRun fs failAt).printed = [Msg.error]) := by
  obtain ⟨c, es⟩ := fs
  refine ⟨fun hd => ⟨?_, ?_⟩, fun hb failAt => ?_⟩
  · rcases hd with h | h <;>
      simp [mainRun, makedirs, h, runSeq, diagramSpecs, renderDiagram,
        pngFile, lookupE_upsert_self, lookupE_upsert_ne,
        imageClassifierDiagram, textAnalyzerDiagram, dataPredictorDiagram,
        overviewDiagram]
  · intro k hk
    interval_cases k <;>
      rcases hd with h | h <;>
        simp [mainRun, makedirs, h, runSeq, diagramSpecs, renderDiagram,
          pngFile, imageClassifierDiagram, textAnalyzerDiagram,
          dataPredictorDiagram, overviewDiagram]
  · obtain ⟨cc, hcc⟩ := hb
    simp [mainRun, makedirs, hcc]

/-- Witness for C3: from an empty filesystem the run exits 0; with the
second routine raising it exits 1; with a file occupying the diagrams
path it exits 1 and prints the error report. -/
theorem mainRun_orchestration_witness :
    (mainRun ⟨".", []⟩ none).exitCode = 0 ∧
    (mainRun ⟨".", []⟩ (some 1)).exitCode = 1 ∧
    (mainRun ⟨".", [("diagrams", Entry.file "occupied")]⟩ none).exitCode = 1 ∧
    (mainRun ⟨".", [("diagrams", Entry.file "occupied")]⟩ none).printed =
      [Msg.error] :=
  ⟨((mainRun_orchestration ⟨".", []⟩).1 (Or.inl rfl)).1.1,
   (((mainRun_orchestration ⟨".", []⟩).1 (Or.inl rfl)).2 1 (by decide)).1,
   ((mainRun_orchestration ⟨".", [("diagrams", Entry.file "occupied")]⟩).2
      ⟨"occupied", by decide⟩ none).1,
   ((mainRun_orchestration ⟨".", [("diagrams", Entry.file "occupied")]⟩).2
      ⟨"occupied", by decide⟩ none).2⟩

set_option maxHeartbeats 1000000 in
/-- C4: running the renderer twice is idempotent at the interface: a
first successful run writes the four PNGs, the directory-creation step
of a second run succeeds on the already-existing directory, and the
second run exits 0 producing the same four file names, overwriting the
prior files without error. -/
theorem mainRun_idempotent (fs : FS) (h : dirOk fs.entries) :
    (mainRun fs none).files = diagramFiles ∧
    (∀ e ∈ renderedEntries, lookupE (mainRun fs none).fs.entries e.1 = some e.2) ∧
    makedirs (mainRun fs none).fs.entries "diagrams" =
      some (mainRun fs none).fs.entries ∧
    (mainRun (mainRun fs none).fs none).exitCode = 0 ∧
    (mainRun (mainRun fs none).fs none).files = (mainRun fs none).files := by
  obtain ⟨c, es⟩ := fs
  rcases h with h | h <;>
    simp [mainRun, makedirs, h, runSeq, diagramSpecs, renderDiagram, pngFile,
      renderedEntries, diagramFiles, lookupE_upsert_self, lookupE_upsert_ne,
      imageClassifierDiagram, textAnalyzerDiagram, dataPredictorDiagram,
      overviewDiagram]

/-- Witness for C4 starting from the empty filesystem. -/
theorem mainRun_idempotent_witness :
    (mainRun (mainRun ⟨".", []⟩ none).fs none).exitCode = 0 ∧
    (mainRun (mainRun ⟨".", []⟩ none).fs none).files =
      (mainRun ⟨".", []⟩ none).files :=
  ⟨(mainRun_idempotent ⟨".", []⟩ (Or.inl rfl)).2.2.2.1,
   (mainRun_idempotent ⟨".", []⟩ (Or.inl rfl)).2.2.2.2⟩

set_option maxHeartbeats 1000000 in
/-- C8: rendering is not atomic: when routine k raises, the run exits 1
whatever k is, only the first k PNGs were written and they remain in
place with their rendered contents, no retry happens, and the printed
trail is exactly the k creation messages followed by the error report. -/
theorem mainRun_nonatomic (fs : FS) (k : Nat) (h : dirOk fs.entries)
    (hk : k < 4) :
    (mainRun fs (some k)).exitCode = 1 ∧
    (mainRun fs (some k)).files = diagramFiles.take k ∧
    (mainRun fs (some k)).printed = createdMsgs.take k ++ [Msg.error] ∧
    ∀ e ∈ renderedEntries.take k,
      lookupE (mainRun fs (some k)).fs.entries e.1 = some e.2 := by
  obtain ⟨c, es⟩ := fs
  interval_cases k <;> rcases h with h | h <;>
    simp [mainRun, makedirs, h, runSeq, diagramSpecs, renderDiagram, pngFile,
      renderedEntries, diagramFiles, createdMsgs, lookupE_upsert_self,
      lookupE_upsert_ne, imageClassifierDiagram, textAnalyzerDiagram,
      dataPredictorDiagram, overviewDiagram]

/-- Witness for C8: failure at the third routine from an empty
filesystem. -/
theorem mainRun_nonatomic_witness :
    (mainRun ⟨".", []⟩ (some 2)).exitCode = 1 ∧
    (mainRun ⟨".", []⟩ (some 2)).files = diagramFiles.take 2 :=
  ⟨(mainRun_nonatomic ⟨".", []⟩ 2 (Or.inl rfl) (by decide)).1,
   (mainRun_nonatomic ⟨".", []⟩ 2 (Or.inl rfl) (by decide)).2.1⟩

end FerrisUp

namespace FerrisUp

/-- C1: every generated table has 6 columns named id, name, value,
category, date, is_active in that order, and each column has 100 rows. -/
theorem genTable_shape (r : Randomness) :
    (genTable r).map Prod.fst =
      ["id", "name", "value", "category", "date", "is_active"] ∧
    (genTable r).length = 6 ∧
    (genTable r).map (fun c => c.2.length) = [100, 100, 100, 100, 100, 100] := by
  refine ⟨rfl, rfl, ?_⟩
  have h1 : idColumn.length = 100 := by
    simp only [idColumn, List.length_map, List.length_range']
  have h2 : nameColumn.length = 100 := by
    simp only [nameColumn, List.length_map, List.length_range']
  have h3 : (valueColumn r).length = 100 := by
    simp only [valueColumn, List.length_ofFn]
  have h4 : (categoryColumn r).length = 100 := by
    simp only [categoryColumn, List.length_ofFn]
  have h5 : dateColumn.length = 100 := by
    simp only [dateColumn, List.length_ofFn]
  have h6 : (activeColumn r).length = 100 := by
    simp only [activeColumn, List.length_ofFn]
  show [idColumn.length, nameColumn.length, (valueColumn r).length,
    (categoryColumn r).length, dateColumn.length, (activeColumn r).length] =
    [100, 100, 100, 100, 100, 100]
  rw [h1, h2, h3, h4, h5, h6]

/-- C2: the id column of every generated table is exactly the sequence
1, 2, ..., 100, which is strictly ascending (hence has no gaps and no
duplicates). -/
theorem genTable_id_sequence (r : Randomness) :
    (getCol (genTable r) "id").filterMap valInt =
      (List.range 100).map (fun n => Int.ofNat n + 1) ∧
    List.Pairwise (fun a b => a < b) ((getCol (genTable r) "id").filterMap valInt) := by
  have h : getCol (genTable r) "id" = idColumn := rfl
  rw [h]
  constructor
  · decide
  · decide

/-- C5: the date column of every generated table holds 100 consecutive
calendar days, the first being 2023-01-01 and the last 2023-04-10. -/
theorem genTable_date_consecutive (r : Randomness) :
    ((getCol (genTable r) "date").filterMap valDate).length = 100 ∧
    ((getCol (genTable r) "date").filterMap valDate).head? = some (2023, 1, 1) ∧
    ((getCol (genTable r) "date").filterMap valDate).getLast? = some (2023, 4, 10) ∧
    consecutiveDays ((getCol (genTable r) "date").filterMap valDate) = true := by
  have h : getCol (genTable r) "date" = dateColumn := rfl
  rw [h]
  refine ⟨?_, ?_, ?_, ?_⟩ <;> decide

/-- C9: the name column of every generated table is determined by the id
column: each row's name is the literal "Item " followed by the decimal
rendering of that row's id. -/
theorem genTable_name_from_id (r : Randomness) :
    getCol (genTable r) "name" =
      ((getCol (genTable r) "id").filterMap valInt).map
        (fun n => Value.str ("Item " ++ toString n)) := by
  have h1 : getCol (genTable r) "name" = nameColumn := rfl
  have h2 : getCol (genTable r) "id" = idColumn := rfl
  rw [h1, h2]
  decide

/-- C6: if every underlying uniform draw lies in [0, 1), then every entry
of the value column lies in [0, 1000). -/
theorem genTable_value_range (r : Randomness)
    (h : ∀ i : Fin 100, 0 ≤ r.rand i ∧ r.rand i < 1) :
    List.Forall (fun q => 0 ≤ q ∧ q < 1000)
      ((getCol (genTable r) "value").filterMap valRat) := by
  have hv : getCol (genTable r) "value" = valueColumn r := rfl
  rw [hv, List.forall_iff_forall_mem]
  intro q hq
  rw [List.mem_filterMap] at hq
  obtain ⟨v, hv1, hv2⟩ := hq
  rw [valueColumn, List.mem_ofFn] at hv1
  obtain ⟨i, hi⟩ := hv1
  have hq' : q = r.rand i * 1000 := by
    rw [← hi] at hv2
    simpa [valRat] using hv2.symm
  subst hq'
  obtain ⟨h0, h1⟩ := h i
  constructor
  · positivity
  · calc r.rand i * 1000 < 1 * 1000 := by
          exact mul_lt_mul_of_pos_right h1 (by norm_num)
    _ = 1000 := by norm_num

/-- Witness for C6 at the concrete randomness source r0. -/
theorem genTable_value_range_witness :
    List.Forall (fun q => 0 ≤ q ∧ q < 1000)
      ((getCol (genTable r0) "value").filterMap valRat) :=
  genTable_value_range r0 (by intro i; refine ⟨by norm_num [r0], by norm_num [r0]⟩)

set_option maxHeartbeats 1000000 in
/-- C10: the id, name and date columns never depend on the random draws
(any two runs agree on them), while the value, category and is_active
columns do depend on the draws (two runs can differ on each). -/
theorem genTable_random_independence :
    (∀ r1 r2 : Randomness,
      getCol (genTable r1) "id" = getCol (genTable r2) "id" ∧
      getCol (genTable r1) "name" = getCol (genTable r2) "name" ∧
      getCol (genTable r1) "date" = getCol (genTable r2) "date") ∧
    (∃ s1 s2 : Randomness,
      getCol (genTable s1) "value" ≠ getCol (genTable s2) "value" ∧
      getCol (genTable s1) "category" ≠ getCol (genTable s2) "category" ∧
      getCol (genTable s1) "is_active" ≠ getCol (genTable s2) "is_active") := by
  constructor
  · intro r1 r2
    exact ⟨rfl, rfl, rfl⟩
  · refine ⟨⟨fun _ => 0, fun _ => 0, fun _ => 0⟩,
      ⟨fun _ => 1 / 2, fun _ => 1, fun _ => 1⟩, ?_, ?_, ?_⟩
    · intro h
      have h' : valueColumn ⟨fun _ => 0, fun _ => 0, fun _ => 0⟩ =
          valueColumn ⟨fun _ => 1 / 2, fun _ => 1, fun _ => 1⟩ := h
      rw [valueColumn, valueColumn, List.ofFn_inj] at h'
      have h1 := congrFun h' 0
      simp only [Value.rat.injEq] at h1
      norm_num at h1
    · decide
    · decide

end FerrisUp
